import Mathlib

/-! A shallow embedding of `ssh-serial.c` and `buffer.c` (ssh-serial).

The C program is embedded as pure Lean functions.  A C function that can call
`exit` returns an `Outcome`: either it returned normally with the memory it can
write, or the process exited with a status, after writing something to
`PROGRAM_STDERR`, with the memory as it stood at that moment.  Calls into the
operating system (`open`, `tcgetattr`, `poll`, ...) are answered by an explicit
environment value.
-/

namespace SshSerial

/-! ## Exit statuses and outcomes -/

def PROGRAM_EXIT_SUCCESS : Nat := 0
def PROGRAM_EXIT_FAIL : Nat := 1
def PROGRAM_EXIT_SYNTAX : Nat := 2

/-- What the program wrote to `PROGRAM_STDERR` before leaving: a `die_printf`
message (its format string and its string argument), the help list, or the
version text. -/
inductive Output where
  | die (format : String) (arg : String)
  | help
  | version
  deriving DecidableEq, Repr

/-- Result of running a C function on the memory `σ` it may write. -/
inductive Outcome (σ : Type) where
  | returned (s : σ)
  | exited (code : Nat) (out : Output) (s : σ)
  deriving DecidableEq, Repr

/-! ## The speed table (`speed_list`) -/

/-- A `speed_t` value: the Linux encoding of the termios `Bnnn` constants. -/
abbrev speed_t := Nat

def B0 : speed_t := 0
def B50 : speed_t := 1
def B75 : speed_t := 2
def B110 : speed_t := 3
def B134 : speed_t := 4
def B150 : speed_t := 5
def B200 : speed_t := 6
def B300 : speed_t := 7
def B600 : speed_t := 8
def B1200 : speed_t := 9
def B1800 : speed_t := 10
def B2400 : speed_t := 11
def B4800 : speed_t := 12
def B9600 : speed_t := 13
def B19200 : speed_t := 14
def B38400 : speed_t := 15
def B57600 : speed_t := 4097
def B115200 : speed_t := 4098
def B230400 : speed_t := 4099

structure speed_list_t where
  text : String
  speed : speed_t
  deriving DecidableEq, Repr

/-- The entries of `speed_list` before its `{ NULL, B0 }` terminator. -/
def speed_list : List speed_list_t :=
  [ ⟨"50", B50⟩, ⟨"75", B75⟩, ⟨"110", B110⟩, ⟨"134", B134⟩, ⟨"134.5", B134⟩,
    ⟨"150", B150⟩, ⟨"200", B200⟩, ⟨"300", B300⟩, ⟨"600", B600⟩,
    ⟨"1200", B1200⟩, ⟨"1800", B1800⟩, ⟨"2400", B2400⟩, ⟨"4800", B4800⟩,
    ⟨"9600", B9600⟩, ⟨"19200", B19200⟩, ⟨"38400", B38400⟩, ⟨"57600", B57600⟩,
    ⟨"115200", B115200⟩, ⟨"230400", B230400⟩ ]

/-- The `for` loop of `parse_speed`: walk the table from `p`; the first entry
whose text compares equal (`strcmp`) gives the stored speed; `none` when the
walk reaches the terminator. -/
def parse_speed_loop (text : String) : List speed_list_t → Option speed_t
  | [] => none
  | p :: rest => if text = p.text then some p.speed else parse_speed_loop text rest

def parse_speed_format : String :=
  "Paramater \"%s\" is not an available RS-232 speed.\n"

/-- The function `parse_speed(text, speed_p)`; the memory is `*speed_p`. -/
def parse_speed (text : String) (speed : speed_t) : Outcome speed_t :=
  match parse_speed_loop text speed_list with
  | some s => .returned s
  | none => .exited PROGRAM_EXIT_SYNTAX (.die parse_speed_format text) speed

/-! ## `parse_bool` -/

def parse_bool_format : String :=
  "\"%s\" is not boolean, use \"1\" for yes, \"0\" for no.\n"

/-- The function `parse_bool(text, flag)`; the memory is `*flag`. -/
def parse_bool (text : String) (flag : Int) : Outcome Int :=
  if text = "1" ∨ text = "y" ∨ text = "Y" then .returned 1
  else if text = "0" ∨ text = "n" ∨ text = "N" then .returned 0
  else .exited PROGRAM_EXIT_SYNTAX (.die parse_bool_format text) flag

/-! ## Options -/

structure options_t where
  device_name : String
  input_speed : speed_t
  output_speed : speed_t
  input_speed_name : String
  output_speed_name : String
  dcd : Int
  ctsrts : Int
  deriving DecidableEq, Repr

/-- The `static struct options_t options` of `main` before `parse_options`
runs: static storage is zero-initialised (null names are shown empty). -/
def options_static : options_t := ⟨"", 0, 0, "", "", 0, 0⟩

/-! ## `getopt_long`

The C library function, embedded from its documented behaviour (glibc):
elements of `argv` after `argv[0]` are scanned in order; `--` ends the scan;
an element that is `-` or does not start with `-` is a non-option (skipped, or
ending the scan under `POSIXLY_CORRECT`); `--name`, `--name=value` is a long
option matched exactly or by unambiguous abbreviation; `-xyz` is a cluster of
short options looked up in the option string.  The sequence of values the
successive calls return depends on `argv` alone, so it is computed as a list. -/

def no_argument : Nat := 0
def required_argument : Nat := 1
def optional_argument : Nat := 2

/-- A `struct option` whose `flag` member is `NULL`. -/
structure long_option where
  name : String
  has_arg : Nat
  val : Char
  deriving DecidableEq, Repr

/-- One return of `getopt_long`: the value returned and `optarg`
(`none` for `NULL`). -/
structure GetoptResult where
  opt : Char
  optarg : Option String
  deriving DecidableEq, Repr

/-- The call `strchr(optstring, c)` and the look at the one or two characters after
the hit: `none` when `c` is no option character, otherwise whether the option
takes no, a required or an optional argument. -/
def short_lookup (c : Char) : List Char → Option Nat
  | [] => none
  | x :: rest =>
    if x = c then
      if c = ':' ∨ c = ';' then none
      else match rest with
        | ':' :: ':' :: _ => some optional_argument
        | ':' :: _ => some required_argument
        | _ => some no_argument
    else short_lookup c rest

/-- The value returned when a required argument is missing. -/
def missing_argument (optstring : List Char) : Char :=
  if optstring.head? = some ':' then ':' else '?'

/-- The calls of `getopt_long` that consume one cluster of short options
(the characters after the `-`).  `next` is the element of `argv` after the
cluster, if any; the Boolean tells whether that element was taken as an
argument. -/
def getopt_short (optstring : List Char) (next : Option String) :
    List Char → List GetoptResult × Bool
  | [] => ([], false)
  | c :: more =>
    match short_lookup c optstring with
    | none =>
      let r := getopt_short optstring next more
      (⟨'?', none⟩ :: r.1, r.2)
    | some has_arg =>
      if has_arg = no_argument then
        let r := getopt_short optstring next more
        (⟨c, none⟩ :: r.1, r.2)
      else if more ≠ [] then ([⟨c, some (String.mk more)⟩], false)
      else if has_arg = optional_argument then ([⟨c, none⟩], false)
      else match next with
        | some a => ([⟨c, some a⟩], true)
        | none => ([⟨missing_argument optstring, none⟩], false)

/-- Look a long option name up: an exact match wins; otherwise the options
the name abbreviates, accepted when they all agree on `has_arg` and `val`. -/
def long_lookup (name : List Char) (longopts : List long_option) : Option long_option :=
  match longopts.find? (fun o => decide (o.name.data = name)) with
  | some o => some o
  | none =>
    match longopts.filter (fun o => name.isPrefixOf o.name.data) with
    | [] => none
    | o :: others =>
      if others.all (fun p => decide (p.has_arg = o.has_arg ∧ p.val = o.val)) then some o
      else none

/-- The call of `getopt_long` that consumes one long option (the characters
after the `--`). -/
def getopt_long_option (optstring : List Char) (longopts : List long_option)
    (next : Option String) (body : List Char) : GetoptResult × Bool :=
  let name := body.takeWhile (fun c => c ≠ '=')
  match long_lookup name longopts with
  | none => (⟨'?', none⟩, false)
  | some o =>
    match body.dropWhile (fun c => c ≠ '=') with
    | _ :: value =>
      if o.has_arg ≠ no_argument then (⟨o.val, some (String.mk value)⟩, false)
      else (⟨'?', none⟩, false)
    | [] =>
      if o.has_arg = required_argument then
        match next with
        | some a => (⟨o.val, some a⟩, true)
        | none => (⟨missing_argument optstring, none⟩, false)
      else (⟨o.val, none⟩, false)

/-- The values returned by the successive calls of `getopt_long` until it
returns `-1`.  `skip` says that the head element was already taken as the
argument of the option before it. -/
def getopt_scan (posixly_correct : Bool) (optstring : List Char)
    (longopts : List long_option) : Bool → List String → List GetoptResult
  | _, [] => []
  | true, _ :: rest => getopt_scan posixly_correct optstring longopts false rest
  | false, a :: rest =>
    if a = "--" then []
    else match a.data with
      | '-' :: '-' :: body =>
        let r := getopt_long_option optstring longopts rest.head? body
        r.1 :: getopt_scan posixly_correct optstring longopts r.2 rest
      | '-' :: c :: more =>
        let r := getopt_short optstring rest.head? (c :: more)
        r.1 ++ getopt_scan posixly_correct optstring longopts r.2 rest
      | _ =>
        if posixly_correct then []
        else getopt_scan posixly_correct optstring longopts false rest

/-- The call `getopt_long(argc, argv, optstring, longopts, &opt_index)` made until it
returns `-1`; `argv[0]` is not scanned. -/
def getopt_long (posixly_correct : Bool) (argv : List String) (optstring : String)
    (longopts : List long_option) : List GetoptResult :=
  getopt_scan posixly_correct optstring.data longopts false (argv.drop 1)

/-! ## `parse_options` -/

def getopt_list : List long_option :=
  [ ⟨"bits-per-second", required_argument, 'b'⟩,
    ⟨"bits-per-second-input", required_argument, 'i'⟩,
    ⟨"bits-per-second-output", required_argument, 'j'⟩,
    ⟨"data-carrier-detect", required_argument, 'c'⟩,
    ⟨"device", required_argument, 'd'⟩,
    ⟨"hardware-handshaking", required_argument, 'h'⟩,
    ⟨"version", no_argument, 'V'⟩ ]

/-- The option string passed to `getopt_long` by `parse_options`. -/
def parse_options_optstring : String := "b:c:d:h:V"

/-- The function `parse_version(options)`: prints and calls `exit(PROGRAM_EXIT_SUCCESS)`. -/
def parse_version (options : options_t) : Outcome options_t :=
  .exited PROGRAM_EXIT_SUCCESS .version options

/-- The body of the `switch (opt)` in `parse_options`, for one value returned
by `getopt_long`.  `optarg` is `NULL` only for `V` and `?`, whose cases do not
read it. -/
def parse_options_switch (r : GetoptResult) (options : options_t) : Outcome options_t :=
  let optarg := r.optarg.getD ""
  if r.opt = 'b' then
    let options := { options with input_speed_name := optarg }
    match parse_speed optarg options.input_speed with
    | .exited code out s => .exited code out { options with input_speed := s }
    | .returned s =>
      let options := { options with input_speed := s }
      let options := { options with output_speed_name := options.input_speed_name }
      .returned { options with output_speed := options.input_speed }
  else if r.opt = 'c' then
    match parse_bool optarg options.dcd with
    | .exited code out s => .exited code out { options with dcd := s }
    | .returned s => .returned { options with dcd := s }
  else if r.opt = 'd' then
    .returned { options with device_name := optarg }
  else if r.opt = 'h' then
    match parse_bool optarg options.ctsrts with
    | .exited code out s => .exited code out { options with ctsrts := s }
    | .returned s => .returned { options with ctsrts := s }
  else if r.opt = 'i' then
    let options := { options with input_speed_name := optarg }
    match parse_speed optarg options.input_speed with
    | .exited code out s => .exited code out { options with input_speed := s }
    | .returned s => .returned { options with input_speed := s }
  else if r.opt = 'j' then
    let options := { options with output_speed_name := optarg }
    match parse_speed optarg options.output_speed with
    | .exited code out s => .exited code out { options with output_speed := s }
    | .returned s => .returned { options with output_speed := s }
  else if r.opt = 'V' then
    parse_version options
  else
    .exited PROGRAM_EXIT_SYNTAX .help options

/-- The `while` loop of `parse_options` over the values `getopt_long` returns. -/
def parse_options_loop : List GetoptResult → options_t → Outcome options_t
  | [], options => .returned options
  | r :: rest, options =>
    match parse_options_switch r options with
    | .returned s => parse_options_loop rest s
    | .exited code out s => .exited code out s

/-- The defaults assigned at the head of `parse_options`. -/
def parse_options_defaults (options : options_t) : Outcome options_t :=
  let options := { options with device_name := "/dev/ttyS0" }
  let options := { options with input_speed_name := "9600" }
  match parse_speed options.input_speed_name options.input_speed with
  | .exited code out s => .exited code out { options with input_speed := s }
  | .returned s =>
    let options := { options with input_speed := s }
    let options := { options with output_speed_name := "9600" }
    match parse_speed options.output_speed_name options.output_speed with
    | .exited code out s => .exited code out { options with output_speed := s }
    | .returned s =>
      let options := { options with output_speed := s }
      let options := { options with dcd := 1 }
      .returned { options with ctsrts := 1 }

/-- The function `parse_options(argc, argv, options)`; the memory is `*options`. -/
def parse_options (posixly_correct : Bool) (argv : List String) (options : options_t) :
    Outcome options_t :=
  match parse_options_defaults options with
  | .exited code out s => .exited code out s
  | .returned s =>
    parse_options_loop (getopt_long posixly_correct argv parse_options_optstring getopt_list) s

/-! ## Serial line set-up (`setup_serial`) -/

/-- A `struct termios`; the flag words are `tcflag_t`, 32-bit unsigned. -/
structure termios where
  c_iflag : Nat
  c_oflag : Nat
  c_cflag : Nat
  c_lflag : Nat
  c_line : Nat
  c_cc : List Nat
  c_ispeed : speed_t
  c_ospeed : speed_t
  deriving DecidableEq, Repr

/-! Flag bits of Linux `termios.h` (octal in the header). -/
def IGNBRK : Nat := 0x1
def BRKINT : Nat := 0x2
def PARMRK : Nat := 0x8
def ISTRIP : Nat := 0x20
def INLCR : Nat := 0x40
def IGNCR : Nat := 0x80
def ICRNL : Nat := 0x100
def IXON : Nat := 0x400
def OPOST : Nat := 0x1
def ISIG : Nat := 0x1
def ICANON : Nat := 0x2
def ECHO : Nat := 0x8
def ECHONL : Nat := 0x40
def IEXTEN : Nat := 0x8000
def CSIZE : Nat := 0x30
def CS8 : Nat := 0x30
def PARENB : Nat := 0x100
def HUPCL : Nat := 0x400
def CLOCAL : Nat := 0x800
def CRTSCTS : Nat := 0x80000000

/-- The operand `~mask` once converted to `tcflag_t` (32-bit complement). -/
def tcflag_not (mask : Nat) : Nat := 0xFFFFFFFF - mask % 0x100000000

/-- A system or library call made by the program, with its arguments. -/
inductive SysCall where
  | sys_open (path : String)
  | sys_tcgetattr (f : Int)
  | sys_tcsetattr (f : Int) (t : termios)
  | sys_poll (fds : List Int)
  | sys_close (f : Int)
  deriving DecidableEq, Repr

/-- An entry of `struct pollfd pollfds[3]`. -/
structure pollfd where
  fd : Int
  events : Nat
  revents : Nat
  deriving DecidableEq, Repr

/-- What one call of `poll` gives back: its return value and the `revents`
it stored in the three slots (the bit patterns of the `short`s). -/
structure PollReturn where
  ready : Int
  stdin_revents : Nat
  stdout_revents : Nat
  serialinout_revents : Nat
  deriving DecidableEq, Repr

/-- The answers of the operating system and the C library to the program. -/
structure Env where
  posixly_correct : Bool
  stdin_fileno : Int
  stdout_fileno : Int
  sys_open : String → Int
  tcgetattr : Int → Option termios
  cfsetospeed : termios → speed_t → Option termios
  cfsetispeed : termios → speed_t → Option termios
  tcsetattr : Int → termios → Bool
  polls : List PollReturn
  sys_close : Int → Int

/-- The termios value `setup_serial` has assembled when it reaches
`tcsetattr`, from the value `t` left by the two speed calls: the statements
under "Update Obey DCD", "Update CTS/RTS handshaking" and "Drop DTR on exit". -/
def setup_serial_policy (options : options_t) (t : termios) : termios :=
  let t := { t with c_cflag := t.c_cflag &&& tcflag_not CLOCAL }
  let t := if 0 = options.dcd then { t with c_cflag := t.c_cflag ||| CLOCAL } else t
  let t := { t with c_cflag := t.c_cflag &&& tcflag_not CRTSCTS }
  let t := if options.ctsrts ≠ 0 then { t with c_cflag := t.c_cflag ||| CRTSCTS } else t
  { t with c_cflag := (t.c_cflag &&& tcflag_not HUPCL) ||| HUPCL }

/-- The statements under "Set raw mode" in `setup_serial`. -/
def setup_serial_raw (t : termios) : termios :=
  let iflag_mask :=
    IGNBRK ||| BRKINT ||| PARMRK ||| ISTRIP ||| INLCR ||| IGNCR ||| ICRNL ||| IXON
  let lflag_mask := ECHO ||| ECHONL ||| ICANON ||| ISIG ||| IEXTEN
  let t := { t with c_iflag := t.c_iflag &&& tcflag_not iflag_mask }
  let t := { t with c_oflag := t.c_oflag &&& tcflag_not OPOST }
  let t := { t with c_lflag := t.c_lflag &&& tcflag_not lflag_mask }
  let t := { t with c_cflag := t.c_cflag &&& tcflag_not (CSIZE ||| PARENB) }
  { t with c_cflag := t.c_cflag ||| CS8 }

/-- The function `setup_serial(f, options)`; the memory is the list of calls made so far,
latest last. -/
def setup_serial (env : Env) (f : Int) (options : options_t) (trace : List SysCall) :
    Outcome (List SysCall) :=
  let trace := trace ++ [.sys_tcgetattr f]
  match env.tcgetattr f with
  | none =>
    .exited PROGRAM_EXIT_FAIL
      (.die "Failed getting attributes from serial port %s.\n" options.device_name) trace
  | some t =>
    let t := setup_serial_raw t
    match env.cfsetospeed t options.output_speed with
    | none =>
      .exited PROGRAM_EXIT_FAIL
        (.die "Failed to set output speed to %s for serial port %s.\n"
          options.output_speed_name) trace
    | some t =>
      match env.cfsetispeed t options.input_speed with
      | none =>
        .exited PROGRAM_EXIT_FAIL
          (.die "Failed to set input speed to %s for serial port %s.\n"
            options.input_speed_name) trace
      | some t =>
        let t := setup_serial_policy options t
        let trace := trace ++ [.sys_tcsetattr f t]
        if env.tcsetattr f t then .returned trace
        else
          .exited PROGRAM_EXIT_FAIL
            (.die "Failed to establish settings for serial port %s.\n" options.device_name)
            trace

/-! ## The poll loop of `main` -/

def POLLIN : Nat := 0x001
def POLLPRI : Nat := 0x002
def POLLOUT : Nat := 0x004
def POLLERR : Nat := 0x008
def POLLHUP : Nat := 0x010
def POLLNVAL : Nat := 0x020
def POLLRDHUP : Nat := 0x2000

/-- The locals of `main` that the loop reads and writes; the three slots of
`pollfds` are `POLLFD_STDIN`, `POLLFD_STDOUT` and `POLLFD_SERIALINOUT`.  The
counters are `unsigned long`. -/
structure LoopState where
  pollfd_stdin : pollfd
  pollfd_stdout : pollfd
  pollfd_serialinout : pollfd
  disconnected : Int
  timeout_count : Nat
  stdin_count : Nat
  stdout_count : Nat
  serialin_count : Nat
  serialout_count : Nat
  deriving DecidableEq, Repr

/-- The increment `x++` on an `unsigned long`. -/
def ulong_incr (x : Nat) : Nat := (x + 1) % 2 ^ 64

/-- The state of the locals when the loop is first entered. -/
def loop_init (stdin_fileno stdout_fileno f : Int) : LoopState :=
  { pollfd_stdin := ⟨stdin_fileno, POLLIN ||| POLLRDHUP, 0⟩
    pollfd_stdout := ⟨stdout_fileno, POLLOUT ||| POLLERR ||| POLLHUP, 0⟩
    pollfd_serialinout := ⟨f, POLLIN ||| POLLOUT ||| POLLERR ||| POLLHUP, 0⟩
    disconnected := 0
    timeout_count := 0
    stdin_count := 0
    stdout_count := 0
    serialin_count := 0
    serialout_count := 0 }

/-- The `if (stdin_revents)` block. -/
def loop_stdin (s : LoopState) : LoopState :=
  let stdin_revents := s.pollfd_stdin.revents
  if stdin_revents ≠ 0 then
    let s := if POLLRDHUP &&& stdin_revents ≠ 0 then
        { s with pollfd_stdin := { s.pollfd_stdin with fd := -s.pollfd_stdin.fd } }
      else s
    if (POLLIN ||| POLLPRI) &&& stdin_revents ≠ 0 then
      { s with stdin_count := ulong_incr s.stdin_count }
    else s
  else s

/-- The `if (stdout_revents)` block. -/
def loop_stdout (s : LoopState) : Outcome LoopState :=
  let stdout_revents := s.pollfd_stdout.revents
  if stdout_revents ≠ 0 then
    let s := if POLLHUP &&& stdout_revents ≠ 0 then
        { s with pollfd_stdout := { s.pollfd_stdout with fd := -s.pollfd_stdout.fd } }
      else s
    if (POLLERR ||| POLLNVAL) &&& stdout_revents ≠ 0 then
      .exited PROGRAM_EXIT_FAIL (.die "Failed polling output on network.\n" "") s
    else if POLLOUT &&& stdout_revents ≠ 0 then
      .returned { s with stdout_count := ulong_incr s.stdout_count }
    else .returned s
  else .returned s

/-- The `if (serialinout_revents)` block. -/
def loop_serialinout (s : LoopState) : Outcome LoopState :=
  let serialinout_revents := s.pollfd_serialinout.revents
  if serialinout_revents ≠ 0 then
    if (POLLERR ||| POLLNVAL) &&& serialinout_revents ≠ 0 then
      .exited PROGRAM_EXIT_FAIL (.die "Failed polling output on serial.\n" "") s
    else
      let s := if POLLHUP &&& serialinout_revents ≠ 0 then
          { s with pollfd_serialinout :=
              { s.pollfd_serialinout with fd := -s.pollfd_serialinout.fd } }
        else s
      let s := if POLLRDHUP &&& serialinout_revents ≠ 0 then
          { s with pollfd_serialinout :=
              { s.pollfd_serialinout with fd := -s.pollfd_serialinout.fd } }
        else s
      let s := if (POLLIN ||| POLLPRI) &&& serialinout_revents ≠ 0 then
          { s with serialin_count := ulong_incr s.serialin_count }
        else s
      if POLLOUT &&& serialinout_revents &&& serialinout_revents ≠ 0 then
        .returned { s with serialout_count := ulong_incr s.serialout_count }
      else .returned s
  else .returned s

/-- The effect of a `poll` call that did not fail on `pollfds`: the `revents`
members are overwritten with what the call reports. -/
def poll_store (s : LoopState) (r : PollReturn) : LoopState :=
  { s with
    pollfd_stdin := { s.pollfd_stdin with revents := r.stdin_revents }
    pollfd_stdout := { s.pollfd_stdout with revents := r.stdout_revents }
    pollfd_serialinout := { s.pollfd_serialinout with revents := r.serialinout_revents } }

/-- One pass through the body of `while (!disconnected)`, given what `poll`
returns. -/
def loop_body (device_name : String) (s : LoopState) (r : PollReturn) : Outcome LoopState :=
  let ready := r.ready
  if -1 = ready then
    .exited PROGRAM_EXIT_FAIL
      (.die "Failed waiting for I/O on serial device %s.\n" device_name) s
  else
    let s := poll_store s r
    let s := if 0 = ready then { s with timeout_count := ulong_incr s.timeout_count } else s
    if ready > 0 then
      let s := loop_stdin s
      match loop_stdout s with
      | .exited code out s => .exited code out s
      | .returned s => loop_serialinout s
    else .returned s

/-- How far the `while (!disconnected)` loop gets on a finite list of `poll`
returns. -/
inductive LoopResult where
  | left (s : LoopState) (trace : List SysCall)
  | died (code : Nat) (out : Output) (s : LoopState) (trace : List SysCall)
  | blocked (s : LoopState) (trace : List SysCall)
  deriving DecidableEq, Repr

/-- The descriptors `poll` is handed. -/
def poll_fds (s : LoopState) : List Int :=
  [s.pollfd_stdin.fd, s.pollfd_stdout.fd, s.pollfd_serialinout.fd]

/-- The loop `while (!disconnected) { ... }`: `left` when the loop condition
fails, `died` when the body exits the process, `blocked` when the loop is
still running after the last supplied return of `poll` (the call after it has
not returned). -/
def main_loop (device_name : String) :
    List PollReturn → LoopState → List SysCall → LoopResult
  | [], s, trace =>
    if s.disconnected ≠ 0 then .left s trace
    else .blocked s (trace ++ [.sys_poll (poll_fds s)])
  | r :: rest, s, trace =>
    if s.disconnected ≠ 0 then .left s trace
    else
      let trace := trace ++ [.sys_poll (poll_fds s)]
      match loop_body device_name s r with
      | .exited code out s => .died code out s trace
      | .returned s => main_loop device_name rest s trace

/-! ## `main` -/

/-- How a run of the program ends: `exit(code)` was called, `main` returned
`code`, or the program is still inside the poll loop. -/
inductive MainResult where
  | exited (code : Nat) (out : Output) (trace : List SysCall)
  | returned (code : Nat) (trace : List SysCall)
  | looping (s : LoopState) (trace : List SysCall)
  deriving DecidableEq, Repr

/-- The function `main(argc, argv)` run against the environment `env`. -/
def main (env : Env) (argv : List String) : MainResult :=
  match parse_options env.posixly_correct argv options_static with
  | .exited code out _ => .exited code out []
  | .returned options =>
    let f := env.sys_open options.device_name
    let trace := [SysCall.sys_open options.device_name]
    if -1 = f then
      .exited PROGRAM_EXIT_FAIL (.die "Failed opening serial device %s.\n" options.device_name)
        trace
    else
      match setup_serial env f options trace with
      | .exited code out trace => .exited code out trace
      | .returned trace =>
        match main_loop options.device_name env.polls
            (loop_init env.stdin_fileno env.stdout_fileno f) trace with
        | .died code out _ trace => .exited code out trace
        | .blocked s trace => .looping s trace
        | .left _ trace =>
          let trace := trace ++ [.sys_close f]
          if env.sys_close f ≠ 0 then
            .exited PROGRAM_EXIT_FAIL
              (.die "Failed closing serial device %s.\n" options.device_name) trace
          else .returned PROGRAM_EXIT_SUCCESS trace

/-! ## The byte buffer (`buffer.h`, `buffer.c`) -/

/-- A `struct buffer_struct`; pointers are addresses. -/
structure buffer_t where
  buffer_start : Nat
  buffer_size : Nat
  data_start : Nat
  data_size : Nat
  deriving DecidableEq, Repr

/-- The function `buffer_make(size)`.  `b_alloc` and `start_alloc` are what the two calls
of `malloc` return (`none` for `NULL`): the address of the structure and of
the `size` bytes of storage. -/
def buffer_make (b_alloc start_alloc : Option Nat) (size : Nat) : Option buffer_t :=
  match b_alloc with
  | none => none
  | some _ =>
    match start_alloc with
    | none => none
    | some buffer_start =>
      some { buffer_start := buffer_start
             buffer_size := size
             data_start := buffer_start
             data_size := 0 }

/-- Modelled from the spec: `buffer_remaining_start`, declared in `buffer.h`
and defined in no source file.  The spec's `remaining_region` is the "writable
sub-region following pending data": it starts where the pending data ends. -/
def buffer_remaining_start (t : buffer_t) : Nat := t.data_start + t.data_size

/-- Modelled from the spec: `buffer_remaining_size`, declared in `buffer.h`
and defined in no source file.  The writable sub-region runs from the end of
the pending data to the end of the backing storage. -/
def buffer_remaining_size (t : buffer_t) : Nat :=
  (t.buffer_start + t.buffer_size) - (t.data_start + t.data_size)

/-- Modelled from the spec: `buffer_remaining`, declared in `buffer.h` and
defined in no source file: "free space exists after pending data". -/
def buffer_remaining (t : buffer_t) : Int :=
  if buffer_remaining_size t ≠ 0 then 1 else 0

/-- Modelled from the spec: `buffer_added_data`, declared in `buffer.h` and
defined in no source file.  The spec's `committed(n)` "records n newly-read
bytes (0 ≤ n ≤ size reported by remaining_region) as now pending", and a call
outside those bounds "must fail loudly" (`none`). -/
def buffer_added_data (t : buffer_t) (r : Int) : Option buffer_t :=
  if 0 ≤ r ∧ r ≤ (buffer_remaining_size t : Int) then
    some { t with data_size := t.data_size + r.toNat }
  else none

/-- Modelled from the spec: `buffer_data`, declared in `buffer.h` and defined
in no source file: "pending data exists". -/
def buffer_data (t : buffer_t) : Int :=
  if t.data_size ≠ 0 then 1 else 0

/-- Modelled from the spec: `buffer_data_start`, declared in `buffer.h` and
defined in no source file: the start of the "readable sub-region of pending
data". -/
def buffer_data_start (t : buffer_t) : Nat := t.data_start

/-- Modelled from the spec: `buffer_data_size`, declared in `buffer.h` and
defined in no source file: the pending length. -/
def buffer_data_size (t : buffer_t) : Nat := t.data_size

/-- Modelled from the spec: `buffer_removed_data`, declared in `buffer.h` and
defined in no source file.  The spec's `consumed(n)` "removes n bytes
(0 ≤ n ≤ pending length) from the front, repositioning remaining pending data
so future remaining_region calls see maximal contiguous free space": what is
left is moved to the start of the storage.  A call outside the bounds fails
loudly (`none`). -/
def buffer_removed_data (t : buffer_t) (written : Int) : Option buffer_t :=
  if 0 ≤ written ∧ written ≤ (buffer_data_size t : Int) then
    some { t with data_start := t.buffer_start
                  data_size := t.data_size - written.toNat }
  else none

/-- A call made on a buffer after its creation. -/
inductive BufferCall where
  | added_data (r : Int)
  | removed_data (written : Int)
  deriving DecidableEq, Repr

/-- Apply a sequence of calls, first call first; `none` as soon as one of
them is made outside its bounds. -/
def buffer_calls : List BufferCall → buffer_t → Option buffer_t
  | [], t => some t
  | .added_data r :: rest, t =>
    match buffer_added_data t r with
    | none => none
    | some t => buffer_calls rest t
  | .removed_data written :: rest, t =>
    match buffer_removed_data t written with
    | none => none
    | some t => buffer_calls rest t

/-- The memory a function leaves behind, whether it returned or exited. -/
def Outcome.memory {σ : Type} : Outcome σ → σ
  | .returned s => s
  | .exited _ _ s => s

/-- The option value `c` was returned by some call of `getopt_long`. -/
def option_given (c : Char) (rs : List GetoptResult) : Prop :=
  ∃ r ∈ rs, r.opt = c

/-- The mask bit `mask` is set in the flag word `flags`. -/
def flag_set (flags mask : Nat) : Prop := flags &&& mask ≠ 0

/-- An environment in which every call succeeds: the device opens on
descriptor 3 with all flag bits clear, the speed calls store the speed, and
`poll` is never answered. -/
def env_quiet : Env :=
  { posixly_correct := false
    stdin_fileno := 0
    stdout_fileno := 1
    sys_open := fun _ => 3
    tcgetattr := fun _ => some ⟨0, 0, 0, 0, 0, [], 0, 0⟩
    cfsetospeed := fun t speed => some { t with c_ospeed := speed }
    cfsetispeed := fun t speed => some { t with c_ispeed := speed }
    tcsetattr := fun _ _ => true
    polls := []
    sys_close := fun _ => 0 }

/-! Baud-rate fields of the Linux `c_cflag` and `c_iflag` words, used by the
C library's speed calls. -/
def CBAUD : Nat := 0x100F
def CBAUDEX : Nat := 0x1000
def IBAUD0 : Nat := 0x80000000
def B4000000 : speed_t := 0x100F

/-- What glibc's `cfsetospeed` does on Linux: an invalid speed is refused,
otherwise the baud field of `c_cflag` is replaced by the speed. -/
def glibc_cfsetospeed (t : termios) (speed : speed_t) : Option termios :=
  if speed &&& tcflag_not CBAUD ≠ 0 ∧ (speed < B57600 ∨ speed > B4000000) then none
  else some { t with c_cflag := (t.c_cflag &&& tcflag_not (CBAUD ||| CBAUDEX)) ||| speed }

/-- What glibc's `cfsetispeed` does on Linux: an invalid speed is refused,
speed 0 sets `IBAUD0`, otherwise `IBAUD0` is cleared and the baud field of
`c_cflag` is replaced by the speed. -/
def glibc_cfsetispeed (t : termios) (speed : speed_t) : Option termios :=
  if speed &&& tcflag_not CBAUD ≠ 0 ∧ (speed < B57600 ∨ speed > B4000000) then none
  else if speed = 0 then some { t with c_iflag := t.c_iflag ||| IBAUD0 }
  else
    some { t with
      c_iflag := t.c_iflag &&& tcflag_not IBAUD0
      c_cflag := (t.c_cflag &&& tcflag_not (CBAUD ||| CBAUDEX)) ||| speed }

/-- An environment whose speed calls behave as glibc's do on Linux and whose
device, opened on descriptor 3, reports the termios value `t0`. -/
def env_linux (t0 : termios) : Env :=
  { posixly_correct := false
    stdin_fileno := 0
    stdout_fileno := 1
    sys_open := fun _ => 3
    tcgetattr := fun _ => some t0
    cfsetospeed := glibc_cfsetospeed
    cfsetispeed := glibc_cfsetispeed
    tcsetattr := fun _ _ => true
    polls := []
    sys_close := fun _ => 0 }

/-! ## Theorems -/

theorem parse_speed_loop_mem :
    ∀ e ∈ speed_list, parse_speed_loop e.text speed_list = some e.speed := by
  decide

theorem parse_speed_loop_some (text : String) (l : List speed_list_t) (s : speed_t)
    (h : parse_speed_loop text l = some s) : text ∈ l.map (fun e => e.text) := by
  induction l with
  | nil => simp [parse_speed_loop] at h
  | cons p rest ih =>
    unfold parse_speed_loop at h
    by_cases hp : text = p.text
    · simp [hp]
    · simp only [hp, if_false] at h
      simp [ih h]

theorem parse_speed_loop_none (text : String) (l : List speed_list_t)
    (h : text ∉ l.map (fun e => e.text)) : parse_speed_loop text l = none := by
  cases hl : parse_speed_loop text l with
  | none => rfl
  | some s => exact absurd (parse_speed_loop_some text l s hl) h

/-- C6: `parse_speed` looks the token up in `speed_list`: given the text of an
entry it returns normally having stored that entry's speed (`"134"` and
`"134.5"` both store `B134`); the accepted tokens are exactly the nineteen
texts of the table, by string equality. -/
theorem parse_speed_table (speed : speed_t) :
    (∀ e ∈ speed_list, parse_speed e.text speed = .returned e.speed) ∧
    parse_speed "134" speed = .returned B134 ∧
    parse_speed "134.5" speed = .returned B134 ∧
    (∀ text, (∃ s, parse_speed text speed = .returned s) ↔
      text ∈ speed_list.map (fun e => e.text)) ∧
    speed_list.map (fun e => e.text) =
      ["50", "75", "110", "134", "134.5", "150", "200", "300", "600", "1200", "1800",
       "2400", "4800", "9600", "19200", "38400", "57600", "115200", "230400"] := by
  have hmem : ∀ e ∈ speed_list, parse_speed e.text speed = .returned e.speed := by
    intro e he
    simp [parse_speed, parse_speed_loop_mem e he]
  refine ⟨hmem, hmem ⟨"134", B134⟩ (by decide), hmem ⟨"134.5", B134⟩ (by decide), ?_, by decide⟩
  intro text
  constructor
  · rintro ⟨s, hs⟩
    unfold parse_speed at hs
    cases hl : parse_speed_loop text speed_list with
    | none => simp [hl] at hs
    | some s0 => exact parse_speed_loop_some text _ s0 hl
  · intro h
    obtain ⟨e, he, rfl⟩ := List.mem_map.mp h
    exact ⟨e.speed, hmem e he⟩

/-- C7: `parse_bool` stores 1 and returns exactly for `"1"`, `"y"`, `"Y"`,
stores 0 and returns exactly for `"0"`, `"n"`, `"N"`, and for every other
string exits with `PROGRAM_EXIT_SYNTAX` (2) with the flag as it was. -/
theorem parse_bool_spellings (text : String) (flag : Int) :
    (parse_bool text flag = .returned 1 ↔ (text = "1" ∨ text = "y" ∨ text = "Y")) ∧
    (parse_bool text flag = .returned 0 ↔ (text = "0" ∨ text = "n" ∨ text = "N")) ∧
    ((∃ code out s, parse_bool text flag = .exited code out s) ↔
      text ∉ ["1", "y", "Y", "0", "n", "N"]) ∧
    (text ∉ ["1", "y", "Y", "0", "n", "N"] →
      parse_bool text flag = .exited 2 (.die parse_bool_format text) flag) := by
  unfold parse_bool
  by_cases h1 : text = "1" ∨ text = "y" ∨ text = "Y"
  · have h0 : ¬ (text = "0" ∨ text = "n" ∨ text = "N") := by
      rcases h1 with h | h | h <;> subst h <;> decide
    simp only [h1, h0, if_true]
    refine ⟨by simp, by simp, ?_, ?_⟩
    · rcases h1 with h | h | h <;> subst h <;> simp
    · rcases h1 with h | h | h <;> subst h <;> simp
  · by_cases h0 : text = "0" ∨ text = "n" ∨ text = "N"
    · simp only [h1, h0, if_true, if_false]
      refine ⟨by simp, by simp, ?_, ?_⟩
      · rcases h0 with h | h | h <;> subst h <;> simp
      · rcases h0 with h | h | h <;> subst h <;> simp
    · simp only [h1, h0, if_false]
      have hn : text ∉ ["1", "y", "Y", "0", "n", "N"] := by
        simp only [List.mem_cons, List.mem_singleton, List.not_mem_nil, or_false]
        tauto
      refine ⟨by simp, by simp, ?_, ?_⟩
      · simp [hn]
      · intro _
        rfl

theorem and_two_pow_ne_zero (x k : Nat) : x &&& 2 ^ k ≠ 0 ↔ x.testBit k = true := by
  constructor
  · intro h
    obtain ⟨i, hi⟩ := Nat.ne_zero_implies_bit_true h
    rw [Nat.testBit_and, Bool.and_eq_true, Nat.testBit_two_pow] at hi
    have hk : k = i := of_decide_eq_true hi.2
    rw [hk]
    exact hi.1
  · intro h hz
    have hb : (x &&& 2 ^ k).testBit k = true := by
      rw [Nat.testBit_and, h, Nat.testBit_two_pow_self]
      rfl
    rw [hz, Nat.zero_testBit] at hb
    exact Bool.noConfusion hb

theorem flag_set_CLOCAL (c : Nat) : flag_set c CLOCAL ↔ c.testBit 11 = true :=
  and_two_pow_ne_zero c 11

theorem flag_set_HUPCL (c : Nat) : flag_set c HUPCL ↔ c.testBit 10 = true :=
  and_two_pow_ne_zero c 10

theorem flag_set_CRTSCTS (c : Nat) : flag_set c CRTSCTS ↔ c.testBit 31 = true :=
  and_two_pow_ne_zero c 31

/-- The three policy bits of the flag word `setup_serial` assembles, whatever
the word was before. -/
theorem setup_serial_policy_cflag (options : options_t) (t : termios) :
    (flag_set (setup_serial_policy options t).c_cflag CLOCAL ↔ options.dcd = 0) ∧
    (flag_set (setup_serial_policy options t).c_cflag CRTSCTS ↔ options.ctsrts ≠ 0) ∧
    flag_set (setup_serial_policy options t).c_cflag HUPCL := by
  have n1 : (tcflag_not CLOCAL).testBit 11 = false := by decide
  have n2 : (tcflag_not CRTSCTS).testBit 11 = true := by decide
  have n3 : (tcflag_not HUPCL).testBit 11 = true := by decide
  have n4 : CLOCAL.testBit 11 = true := by decide
  have n5 : CRTSCTS.testBit 11 = false := by decide
  have n6 : HUPCL.testBit 11 = false := by decide
  have m2 : (tcflag_not CRTSCTS).testBit 31 = false := by decide
  have m3 : (tcflag_not HUPCL).testBit 31 = true := by decide
  have m5 : CRTSCTS.testBit 31 = true := by decide
  have m6 : HUPCL.testBit 31 = false := by decide
  have m1 : (tcflag_not CLOCAL).testBit 31 = true := by decide
  have k1 : (tcflag_not CLOCAL).testBit 10 = true := by decide
  have k2 : (tcflag_not CRTSCTS).testBit 10 = true := by decide
  have k3 : (tcflag_not HUPCL).testBit 10 = false := by decide
  have k5 : CRTSCTS.testBit 10 = false := by decide
  have k6 : HUPCL.testBit 10 = true := by decide
  rw [flag_set_CLOCAL, flag_set_CRTSCTS, flag_set_HUPCL]
  unfold setup_serial_policy
  have e : ((0 : Int) = options.dcd) = (options.dcd = 0) := propext eq_comm
  simp only [e]
  by_cases hd : options.dcd = 0 <;> by_cases hc : options.ctsrts = 0
  all_goals
    simp only [hd, hc, if_true, if_false, Nat.testBit_and, Nat.testBit_or,
      n1, n2, n3, n4, n5, n6, m1, m2, m3, m5, m6, k1, k2, k3, k5, k6, ne_eq,
      not_true_eq_false, not_false_eq_true, Bool.and_false, Bool.false_and, Bool.and_true,
      Bool.true_and, Bool.or_false, Bool.false_or, Bool.or_true, Bool.true_or,
      Bool.false_eq_true, iff_self, and_self]

/-- Whatever the environment answers, a `tcsetattr` call made by
`setup_serial` carries the three policy bits as configured. -/
theorem setup_serial_cflag_of_call (env : Env) (f : Int) (options : options_t) (t : termios)
    (h : SysCall.sys_tcsetattr f t ∈ (setup_serial env f options []).memory) :
    (flag_set t.c_cflag CLOCAL ↔ options.dcd = 0) ∧
    (flag_set t.c_cflag CRTSCTS ↔ options.ctsrts ≠ 0) ∧
    flag_set t.c_cflag HUPCL := by
  unfold setup_serial at h
  cases h1 : env.tcgetattr f with
  | none => simp [h1, Outcome.memory] at h
  | some t0 =>
    cases h2 : env.cfsetospeed (setup_serial_raw t0) options.output_speed with
    | none => simp [h1, h2, Outcome.memory] at h
    | some t1 =>
      cases h3 : env.cfsetispeed t1 options.input_speed with
      | none => simp [h1, h2, h3, Outcome.memory] at h
      | some t2 =>
        have ht : t = setup_serial_policy options t2 := by
          by_cases h4 : env.tcsetattr f (setup_serial_policy options t2) = true <;>
            simpa [h1, h2, h3, h4, Outcome.memory] using h
        rw [ht]
        exact setup_serial_policy_cflag options t2

/-- C8: for every termios value `t0` read from the device and every options
value, when `tcgetattr` and the two speed calls succeed `setup_serial` calls
`tcsetattr` exactly once (then returns if that call succeeds and exits with
`PROGRAM_EXIT_FAIL` if it does not), and the flag word passed to it has
`CLOCAL` set iff `options.dcd` is 0, `CRTSCTS` set iff `options.ctsrts` is
non-zero, and `HUPCL` set, whatever the word read from the device and
whatever the speed calls did to it; and in every environment every
`tcsetattr` call made carries those bits. -/
theorem setup_serial_cflag (env : Env) (f : Int) (options : options_t) (t0 t1 t2 : termios)
    (h1 : env.tcgetattr f = some t0)
    (h2 : env.cfsetospeed (setup_serial_raw t0) options.output_speed = some t1)
    (h3 : env.cfsetispeed t1 options.input_speed = some t2) :
    ∃ t : termios,
      (setup_serial env f options []).memory = [.sys_tcgetattr f, .sys_tcsetattr f t] ∧
      (env.tcsetattr f t = true →
        setup_serial env f options [] = .returned [.sys_tcgetattr f, .sys_tcsetattr f t]) ∧
      (env.tcsetattr f t = false →
        ∃ out, setup_serial env f options [] =
          .exited PROGRAM_EXIT_FAIL out [.sys_tcgetattr f, .sys_tcsetattr f t]) ∧
      t.c_iflag = t2.c_iflag ∧ t.c_oflag = t2.c_oflag ∧ t.c_lflag = t2.c_lflag ∧
      (flag_set t.c_cflag CLOCAL ↔ options.dcd = 0) ∧
      (flag_set t.c_cflag CRTSCTS ↔ options.ctsrts ≠ 0) ∧
      flag_set t.c_cflag HUPCL ∧
      (∀ t3 : termios, SysCall.sys_tcsetattr f t3 ∈ (setup_serial env f options []).memory →
        t3 = t) := by
  have hb := setup_serial_policy_cflag options t2
  have hk : (setup_serial_policy options t2).c_iflag = t2.c_iflag ∧
      (setup_serial_policy options t2).c_oflag = t2.c_oflag ∧
      (setup_serial_policy options t2).c_lflag = t2.c_lflag := by
    unfold setup_serial_policy
    simp only []
    split_ifs <;> exact ⟨rfl, rfl, rfl⟩
  refine ⟨setup_serial_policy options t2, ?_, ?_, ?_, hk.1, hk.2.1, hk.2.2,
    hb.1, hb.2.1, hb.2.2, ?_⟩
  · unfold setup_serial
    simp only [h1, h2, h3]
    split_ifs <;> simp [Outcome.memory]
  · intro h4
    unfold setup_serial
    simp [h1, h2, h3, h4]
  · intro h4
    unfold setup_serial
    simp [h1, h2, h3, h4, PROGRAM_EXIT_FAIL]
  · intro t3 h
    unfold setup_serial at h
    simp only [h1, h2, h3] at h
    split_ifs at h <;> simpa [Outcome.memory] using h

/-- Witness for C8: a device whose flag words are all ones, configured with
`dcd = 0` and `ctsrts = 0` at 1200/115200, under glibc's speed calls. -/
theorem setup_serial_cflag_witness :
    ((env_linux ⟨0xFFFFFFFF, 0xFFFFFFFF, 0xFFFFFFFF, 0xFFFFFFFF, 0, [], 0, 0⟩).tcgetattr 3 =
      some ⟨0xFFFFFFFF, 0xFFFFFFFF, 0xFFFFFFFF, 0xFFFFFFFF, 0, [], 0, 0⟩) ∧
    (setup_serial (env_linux ⟨0xFFFFFFFF, 0xFFFFFFFF, 0xFFFFFFFF, 0xFFFFFFFF, 0, [], 0, 0⟩) 3
        ⟨"/dev/ttyUSB0", B1200, B115200, "1200", "115200", 0, 0⟩ [] =
      .returned [.sys_tcgetattr 3,
        .sys_tcsetattr 3 ⟨0x7FFFFA14, 0xFFFFFFFE, 0x7FFFEEF9, 0xFFFF7FB4, 0, [], 0, 0⟩]) ∧
    (flag_set 0x7FFFEEF9 CLOCAL ∧ ¬ flag_set 0x7FFFEEF9 CRTSCTS ∧ flag_set 0x7FFFEEF9 HUPCL) ∧
    (setup_serial (env_linux ⟨0, 0, 0x800, 0, 0, [], 0, 0⟩) 3
        ⟨"/dev/ttyS0", B9600, B9600, "9600", "9600", 1, 1⟩ [] =
      .returned [.sys_tcgetattr 3,
        .sys_tcsetattr 3 ⟨0, 0, 0x8000043D, 0, 0, [], 0, 0⟩]) ∧
    (¬ flag_set 0x8000043D CLOCAL ∧ flag_set 0x8000043D CRTSCTS ∧ flag_set 0x8000043D HUPCL) ∧
    (∃ t : termios,
      (setup_serial (env_linux ⟨0xFFFFFFFF, 0xFFFFFFFF, 0xFFFFFFFF, 0xFFFFFFFF, 0, [], 0, 0⟩) 3
        ⟨"/dev/ttyUSB0", B1200, B115200, "1200", "115200", 0, 0⟩ []).memory =
        [.sys_tcgetattr 3, .sys_tcsetattr 3 t] ∧
      (flag_set t.c_cflag CLOCAL ↔ (0 : Int) = 0) ∧
      (flag_set t.c_cflag CRTSCTS ↔ (0 : Int) ≠ 0) ∧
      flag_set t.c_cflag HUPCL) :=
  ⟨by decide, by decide, by unfold flag_set; decide, by decide, by unfold flag_set; decide,
   (setup_serial_cflag (env_linux ⟨0xFFFFFFFF, 0xFFFFFFFF, 0xFFFFFFFF, 0xFFFFFFFF, 0, [], 0, 0⟩)
      3 ⟨"/dev/ttyUSB0", B1200, B115200, "1200", "115200", 0, 0⟩
      ⟨0xFFFFFFFF, 0xFFFFFFFF, 0xFFFFFFFF, 0xFFFFFFFF, 0, [], 0, 0⟩
      ⟨0xFFFFFA14, 0xFFFFFFFE, 0xFFFFFEF2, 0xFFFF7FB4, 0, [], 0, 0⟩
      ⟨0x7FFFFA14, 0xFFFFFFFE, 0xFFFFEEF9, 0xFFFF7FB4, 0, [], 0, 0⟩
      (by decide) (by decide) (by decide)).elim
     (fun t ht => ⟨t, ht.1, ht.2.2.2.2.2.2.1, ht.2.2.2.2.2.2.2.1, ht.2.2.2.2.2.2.2.2.1⟩)⟩

theorem option_given_cons (c : Char) (r : GetoptResult) (rs : List GetoptResult) :
    option_given c (r :: rs) ↔ (r.opt = c ∨ option_given c rs) := by
  simp [option_given]

theorem parse_speed_memory (text : String) (speed : speed_t) :
    (parse_speed text speed).memory = speed ∨
      ∃ s, parse_speed text speed = .returned s := by
  unfold parse_speed
  cases parse_speed_loop text speed_list with
  | none => exact Or.inl rfl
  | some s => exact Or.inr ⟨s, rfl⟩

/-- One pass of the `switch` leaves alone every member that the option it
handles does not own. -/
theorem parse_options_switch_keeps (r : GetoptResult) (s : options_t) :
    (r.opt ≠ 'd' → (parse_options_switch r s).memory.device_name = s.device_name) ∧
    (r.opt ≠ 'c' → (parse_options_switch r s).memory.dcd = s.dcd) ∧
    (r.opt ≠ 'h' → (parse_options_switch r s).memory.ctsrts = s.ctsrts) ∧
    (r.opt ≠ 'b' → r.opt ≠ 'i' →
      (parse_options_switch r s).memory.input_speed = s.input_speed ∧
      (parse_options_switch r s).memory.input_speed_name = s.input_speed_name) ∧
    (r.opt ≠ 'b' → r.opt ≠ 'j' →
      (parse_options_switch r s).memory.output_speed = s.output_speed ∧
      (parse_options_switch r s).memory.output_speed_name = s.output_speed_name) := by
  unfold parse_options_switch parse_version
  simp only []
  split_ifs with hb hc hd hh hi hj hV
  · cases parse_speed (r.optarg.getD "") s.input_speed <;> simp [Outcome.memory, hb]
  · cases parse_bool (r.optarg.getD "") s.dcd <;> simp [Outcome.memory, hc]
  · simp [Outcome.memory, hd]
  · cases parse_bool (r.optarg.getD "") s.ctsrts <;> simp [Outcome.memory, hh]
  · cases parse_speed (r.optarg.getD "") s.input_speed <;> simp [Outcome.memory, hi]
  · cases parse_speed (r.optarg.getD "") s.output_speed <;> simp [Outcome.memory, hj]
  · simp [Outcome.memory]
  · simp [Outcome.memory]

theorem parse_options_loop_cons (r : GetoptResult) (rs : List GetoptResult) (s : options_t) :
    (parse_options_loop (r :: rs) s).memory = (parse_options_switch r s).memory ∨
    ∃ s1, parse_options_switch r s = .returned s1 ∧
      parse_options_loop (r :: rs) s = parse_options_loop rs s1 := by
  cases h : parse_options_switch r s with
  | returned s1 => exact Or.inr ⟨s1, rfl, by simp [parse_options_loop, h]⟩
  | exited code out s1 => exact Or.inl (by simp [parse_options_loop, h, Outcome.memory])

/-- The loop of `parse_options` leaves alone every member whose options were
not returned by `getopt_long`. -/
theorem parse_options_loop_keeps (rs : List GetoptResult) (s : options_t) :
    (¬ option_given 'd' rs → (parse_options_loop rs s).memory.device_name = s.device_name) ∧
    (¬ option_given 'c' rs → (parse_options_loop rs s).memory.dcd = s.dcd) ∧
    (¬ option_given 'h' rs → (parse_options_loop rs s).memory.ctsrts = s.ctsrts) ∧
    (¬ option_given 'b' rs → ¬ option_given 'i' rs →
      (parse_options_loop rs s).memory.input_speed = s.input_speed ∧
      (parse_options_loop rs s).memory.input_speed_name = s.input_speed_name) ∧
    (¬ option_given 'b' rs → ¬ option_given 'j' rs →
      (parse_options_loop rs s).memory.output_speed = s.output_speed ∧
      (parse_options_loop rs s).memory.output_speed_name = s.output_speed_name) := by
  induction rs generalizing s with
  | nil => simp [parse_options_loop, Outcome.memory]
  | cons r rs ih =>
    have hk := parse_options_switch_keeps r s
    simp only [option_given_cons, not_or]
    rcases parse_options_loop_cons r rs s with h | ⟨s1, h1, h2⟩
    · rw [h]
      refine ⟨fun g => hk.1 g.1, fun g => hk.2.1 g.1, fun g => hk.2.2.1 g.1,
        fun g1 g2 => hk.2.2.2.1 g1.1 g2.1, fun g1 g2 => hk.2.2.2.2 g1.1 g2.1⟩
    · rw [h2]
      rw [h1] at hk
      simp only [Outcome.memory] at hk
      have ih1 := ih s1
      refine ⟨fun g => (ih1.1 g.2).trans (hk.1 g.1),
        fun g => (ih1.2.1 g.2).trans (hk.2.1 g.1),
        fun g => (ih1.2.2.1 g.2).trans (hk.2.2.1 g.1),
        fun g1 g2 => ?_, fun g1 g2 => ?_⟩
      · have a := ih1.2.2.2.1 g1.2 g2.2
        have b := hk.2.2.2.1 g1.1 g2.1
        exact ⟨a.1.trans b.1, a.2.trans b.2⟩
      · have a := ih1.2.2.2.2 g1.2 g2.2
        have b := hk.2.2.2.2 g1.1 g2.1
        exact ⟨a.1.trans b.1, a.2.trans b.2⟩

theorem parse_options_defaults_eq (options : options_t) :
    parse_options_defaults options =
      .returned ⟨"/dev/ttyS0", B9600, B9600, "9600", "9600", 1, 1⟩ := by
  rfl

/-- C9: invoked with no options, `parse_options` returns (does not exit)
with device `/dev/ttyS0`, both speeds `B9600` (names `"9600"`), `dcd = 1` and
`ctsrts = 1`; and on any command line each member keeps that default unless an
option that sets it was given (`--device` for the device, `--data-carrier-detect`
for `dcd`, `--hardware-handshaking` for `ctsrts`, `--bits-per-second` or
`--bits-per-second-input` for the input speed, `--bits-per-second` or
`--bits-per-second-output` for the output speed). -/
theorem parse_options_documented_defaults (posixly_correct : Bool) (argv0 : String)
    (argv : List String) (options : options_t) :
    parse_options posixly_correct [argv0] options =
      .returned ⟨"/dev/ttyS0", B9600, B9600, "9600", "9600", 1, 1⟩ ∧
    (getopt_long posixly_correct argv parse_options_optstring getopt_list = [] →
      parse_options posixly_correct argv options =
        .returned ⟨"/dev/ttyS0", B9600, B9600, "9600", "9600", 1, 1⟩) ∧
    (¬ option_given 'd' (getopt_long posixly_correct argv parse_options_optstring getopt_list) →
      (parse_options posixly_correct argv options).memory.device_name = "/dev/ttyS0") ∧
    (¬ option_given 'c' (getopt_long posixly_correct argv parse_options_optstring getopt_list) →
      (parse_options posixly_correct argv options).memory.dcd = 1) ∧
    (¬ option_given 'h' (getopt_long posixly_correct argv parse_options_optstring getopt_list) →
      (parse_options posixly_correct argv options).memory.ctsrts = 1) ∧
    (¬ option_given 'b' (getopt_long posixly_correct argv parse_options_optstring getopt_list) →
      ¬ option_given 'i' (getopt_long posixly_correct argv parse_options_optstring getopt_list) →
      (parse_options posixly_correct argv options).memory.input_speed = B9600 ∧
      (parse_options posixly_correct argv options).memory.input_speed_name = "9600") ∧
    (¬ option_given 'b' (getopt_long posixly_correct argv parse_options_optstring getopt_list) →
      ¬ option_given 'j' (getopt_long posixly_correct argv parse_options_optstring getopt_list) →
      (parse_options posixly_correct argv options).memory.output_speed = B9600 ∧
      (parse_options posixly_correct argv options).memory.output_speed_name = "9600") := by
  have hp : ∀ av, parse_options posixly_correct av options =
      parse_options_loop (getopt_long posixly_correct av parse_options_optstring getopt_list)
        ⟨"/dev/ttyS0", B9600, B9600, "9600", "9600", 1, 1⟩ := by
    intro av
    simp [parse_options, parse_options_defaults_eq]
  have hk := parse_options_loop_keeps
    (getopt_long posixly_correct argv parse_options_optstring getopt_list)
    ⟨"/dev/ttyS0", B9600, B9600, "9600", "9600", 1, 1⟩
  rw [hp, hp]
  refine ⟨rfl, ?_, hk.1, hk.2.1, hk.2.2.1, hk.2.2.2.1, hk.2.2.2.2⟩
  intro h
  rw [h]
  rfl

/-- C10: the short options `-i` and `-j` named by the help list are not in
the option string handed to `getopt_long`: on the command lines `-i s` and
`-j s`, for every token `s`, `parse_options` prints the help list and exits
with `PROGRAM_EXIT_SYNTAX` (2) with both speeds still at their defaults, while
the long spellings are accepted. -/
theorem parse_options_short_i_j (posixly_correct : Bool) (argv0 s : String)
    (options : options_t) :
    parse_options posixly_correct [argv0, "-i", s] options =
      .exited 2 .help ⟨"/dev/ttyS0", B9600, B9600, "9600", "9600", 1, 1⟩ ∧
    parse_options posixly_correct [argv0, "-j", s] options =
      .exited 2 .help ⟨"/dev/ttyS0", B9600, B9600, "9600", "9600", 1, 1⟩ ∧
    parse_options posixly_correct [argv0, "--bits-per-second-input", "1200"] options =
      .returned ⟨"/dev/ttyS0", B1200, B9600, "1200", "9600", 1, 1⟩ ∧
    parse_options posixly_correct [argv0, "--bits-per-second-output", "1200"] options =
      .returned ⟨"/dev/ttyS0", B9600, B1200, "9600", "1200", 1, 1⟩ := by
  refine ⟨rfl, rfl, ?_, ?_⟩ <;> cases posixly_correct <;> rfl

theorem parse_speed_exit (text : String) (speed s : speed_t) (code : Nat) (out : Output)
    (h : parse_speed text speed = .exited code out s) : code = PROGRAM_EXIT_SYNTAX := by
  unfold parse_speed at h
  cases hl : parse_speed_loop text speed_list with
  | none =>
    rw [hl] at h
    injection h with h1 _ _
    exact h1.symm
  | some s0 =>
    rw [hl] at h
    exact Outcome.noConfusion h

theorem parse_bool_exit (text : String) (flag s : Int) (code : Nat) (out : Output)
    (h : parse_bool text flag = .exited code out s) : code = PROGRAM_EXIT_SYNTAX := by
  unfold parse_bool at h
  split_ifs at h
  injection h with h1 _ _
  exact h1.symm

/-- Every way the `switch` of `parse_options` leaves the process, other than
through `--version`, is with the syntax status. -/
theorem parse_options_switch_exit (r : GetoptResult) (s s1 : options_t) (code : Nat)
    (out : Output) (h : parse_options_switch r s = .exited code out s1) (hV : r.opt ≠ 'V') :
    code = PROGRAM_EXIT_SYNTAX := by
  unfold parse_options_switch parse_version at h
  simp only [] at h
  by_cases hb : r.opt = 'b'
  · rw [if_pos hb] at h
    cases hp : parse_speed (r.optarg.getD "") s.input_speed with
    | returned s0 => simp [hp] at h
    | exited c0 o0 s0 =>
      simp only [hp, Outcome.exited.injEq] at h
      exact h.1 ▸ parse_speed_exit _ _ _ _ _ hp
  by_cases hc : r.opt = 'c'
  · rw [if_neg hb, if_pos hc] at h
    cases hp : parse_bool (r.optarg.getD "") s.dcd with
    | returned s0 => simp [hp] at h
    | exited c0 o0 s0 =>
      simp only [hp, Outcome.exited.injEq] at h
      exact h.1 ▸ parse_bool_exit _ _ _ _ _ hp
  by_cases hd : r.opt = 'd'
  · rw [if_neg hb, if_neg hc, if_pos hd] at h
    exact Outcome.noConfusion h
  by_cases hh : r.opt = 'h'
  · rw [if_neg hb, if_neg hc, if_neg hd, if_pos hh] at h
    cases hp : parse_bool (r.optarg.getD "") s.ctsrts with
    | returned s0 => simp [hp] at h
    | exited c0 o0 s0 =>
      simp only [hp, Outcome.exited.injEq] at h
      exact h.1 ▸ parse_bool_exit _ _ _ _ _ hp
  by_cases hi : r.opt = 'i'
  · rw [if_neg hb, if_neg hc, if_neg hd, if_neg hh, if_pos hi] at h
    cases hp : parse_speed (r.optarg.getD "") s.input_speed with
    | returned s0 => simp [hp] at h
    | exited c0 o0 s0 =>
      simp only [hp, Outcome.exited.injEq] at h
      exact h.1 ▸ parse_speed_exit _ _ _ _ _ hp
  by_cases hj : r.opt = 'j'
  · rw [if_neg hb, if_neg hc, if_neg hd, if_neg hh, if_neg hi, if_pos hj] at h
    cases hp : parse_speed (r.optarg.getD "") s.output_speed with
    | returned s0 => simp [hp] at h
    | exited c0 o0 s0 =>
      simp only [hp, Outcome.exited.injEq] at h
      exact h.1 ▸ parse_speed_exit _ _ _ _ _ hp
  rw [if_neg hb, if_neg hc, if_neg hd, if_neg hh, if_neg hi, if_neg hj, if_neg hV] at h
  injection h with h1 _ _
  exact h1.symm

/-- A bit-rate option whose argument is not in the table makes the `switch`
exit with the syntax status. -/
theorem parse_options_switch_bad_speed (c : Char) (token : String) (s : options_t)
    (hc : c = 'b' ∨ c = 'i' ∨ c = 'j') (ht : token ∉ speed_list.map (fun e => e.text)) :
    ∃ s1, parse_options_switch ⟨c, some token⟩ s =
      .exited PROGRAM_EXIT_SYNTAX (.die parse_speed_format token) s1 := by
  have hn := parse_speed_loop_none token speed_list ht
  rcases hc with h | h | h <;> subst h <;>
    simp [parse_options_switch, parse_speed, hn]

/-- The loop of `parse_options` exits with the syntax status when it meets a
bit-rate option with an argument outside the table, unless `--version` was
met first. -/
theorem parse_options_loop_bad_speed (pre post : List GetoptResult) (c : Char)
    (token : String) (s : options_t) (hc : c = 'b' ∨ c = 'i' ∨ c = 'j')
    (ht : token ∉ speed_list.map (fun e => e.text)) (hV : ∀ r ∈ pre, r.opt ≠ 'V') :
    ∃ out s1, parse_options_loop (pre ++ ⟨c, some token⟩ :: post) s =
      .exited PROGRAM_EXIT_SYNTAX out s1 := by
  induction pre generalizing s with
  | nil =>
    obtain ⟨s1, h1⟩ := parse_options_switch_bad_speed c token s hc ht
    exact ⟨.die parse_speed_format token, s1, by simp [parse_options_loop, h1]⟩
  | cons r pre ih =>
    have hr : r.opt ≠ 'V' := hV r (List.mem_cons_self _ _)
    have hpre : ∀ r ∈ pre, r.opt ≠ 'V' := fun x hx => hV x (List.mem_cons_of_mem _ hx)
    cases h : parse_options_switch r s with
    | returned s1 =>
      obtain ⟨out, s2, h2⟩ := ih s1 hpre
      exact ⟨out, s2, by simp [parse_options_loop, h, h2]⟩
    | exited code out s1 =>
      have hcode := parse_options_switch_exit r s s1 code out h hr
      exact ⟨out, s1, by simp [parse_options_loop, h, hcode]⟩

theorem main_of_parse_options_exited (env : Env) (argv : List String) (code : Nat)
    (out : Output) (s : options_t)
    (h : parse_options env.posixly_correct argv options_static = .exited code out s) :
    main env argv = .exited code out [] := by
  simp [main, h]

/-- C5: a token that is not the text of an entry of `speed_list`, given as the
argument of `--bits-per-second`, `--bits-per-second-input` or
`--bits-per-second-output`, makes the program exit with `PROGRAM_EXIT_SYNTAX`
(2, not the failure status 1) before any call is made on the serial device;
the same holds on every command line on which `getopt_long` returns such an
option, provided `--version` was not returned before it. -/
theorem invalid_speed_rejected (env : Env) (argv0 token : String)
    (ht : token ∉ speed_list.map (fun e => e.text)) :
    main env [argv0, "--bits-per-second", token] =
      .exited PROGRAM_EXIT_SYNTAX (.die parse_speed_format token) [] ∧
    main env [argv0, "--bits-per-second-input", token] =
      .exited PROGRAM_EXIT_SYNTAX (.die parse_speed_format token) [] ∧
    main env [argv0, "--bits-per-second-output", token] =
      .exited PROGRAM_EXIT_SYNTAX (.die parse_speed_format token) [] ∧
    PROGRAM_EXIT_SYNTAX ≠ PROGRAM_EXIT_FAIL ∧
    (∀ (argv : List String) (pre post : List GetoptResult) (c : Char),
      (c = 'b' ∨ c = 'i' ∨ c = 'j') →
      getopt_long env.posixly_correct argv parse_options_optstring getopt_list =
        pre ++ ⟨c, some token⟩ :: post →
      (∀ r ∈ pre, r.opt ≠ 'V') →
      ∃ out, main env argv = .exited PROGRAM_EXIT_SYNTAX out []) := by
  have hn := parse_speed_loop_none token speed_list ht
  have hp : ∀ av, parse_options env.posixly_correct av options_static =
      parse_options_loop (getopt_long env.posixly_correct av parse_options_optstring getopt_list)
        ⟨"/dev/ttyS0", B9600, B9600, "9600", "9600", 1, 1⟩ := by
    intro av
    simp [parse_options, parse_options_defaults_eq]
  have g1 : getopt_long env.posixly_correct [argv0, "--bits-per-second", token]
      parse_options_optstring getopt_list = [⟨'b', some token⟩] := rfl
  have g2 : getopt_long env.posixly_correct [argv0, "--bits-per-second-input", token]
      parse_options_optstring getopt_list = [⟨'i', some token⟩] := rfl
  have g3 : getopt_long env.posixly_correct [argv0, "--bits-per-second-output", token]
      parse_options_optstring getopt_list = [⟨'j', some token⟩] := rfl
  refine ⟨?_, ?_, ?_, by decide, ?_⟩
  · apply main_of_parse_options_exited (s := ⟨"/dev/ttyS0", B9600, B9600, token, "9600", 1, 1⟩)
    rw [hp, g1]
    simp [parse_options_loop, parse_options_switch, parse_speed, hn]
  · apply main_of_parse_options_exited (s := ⟨"/dev/ttyS0", B9600, B9600, token, "9600", 1, 1⟩)
    rw [hp, g2]
    simp [parse_options_loop, parse_options_switch, parse_speed, hn]
  · apply main_of_parse_options_exited (s := ⟨"/dev/ttyS0", B9600, B9600, "9600", token, 1, 1⟩)
    rw [hp, g3]
    simp [parse_options_loop, parse_options_switch, parse_speed, hn]
  · intro argv pre post c hc hg hV
    obtain ⟨out, s1, h1⟩ := parse_options_loop_bad_speed pre post c token
      ⟨"/dev/ttyS0", B9600, B9600, "9600", "9600", 1, 1⟩ hc ht hV
    refine ⟨out, main_of_parse_options_exited env argv _ out s1 ?_⟩
    rw [hp, hg, h1]

/-- Witness for C5: the token `fast` given to `--bits-per-second`. -/
theorem invalid_speed_rejected_witness :
    "fast" ∉ speed_list.map (fun e => e.text) ∧
    main env_quiet ["ssh-serial", "--bits-per-second", "fast"] =
      .exited PROGRAM_EXIT_SYNTAX (.die parse_speed_format "fast") [] :=
  ⟨by decide, (invalid_speed_rejected env_quiet "ssh-serial" "fast" (by decide)).1⟩

theorem loop_stdin_disconnected (s : LoopState) :
    (loop_stdin s).disconnected = s.disconnected := by
  unfold loop_stdin
  simp only []
  split_ifs <;> rfl

theorem loop_stdout_disconnected (s s1 : LoopState) (h : loop_stdout s = .returned s1) :
    s1.disconnected = s.disconnected := by
  unfold loop_stdout at h
  simp only [] at h
  split_ifs at h <;> injection h with h <;> subst h <;> rfl

theorem loop_serialinout_disconnected (s s1 : LoopState)
    (h : loop_serialinout s = .returned s1) : s1.disconnected = s.disconnected := by
  unfold loop_serialinout at h
  simp only [] at h
  split_ifs at h <;> injection h with h <;> subst h <;> rfl

/-- No statement of the loop body assigns `disconnected`. -/
theorem loop_body_disconnected (device_name : String) (s s1 : LoopState) (r : PollReturn)
    (h : loop_body device_name s r = .returned s1) : s1.disconnected = s.disconnected := by
  unfold loop_body at h
  simp only [] at h
  by_cases h1 : (-1 : Int) = r.ready
  · rw [if_pos h1] at h
    exact Outcome.noConfusion h
  · rw [if_neg h1] at h
    by_cases h2 : r.ready > 0
    · rw [if_pos h2] at h
      cases h3 : loop_stdout (loop_stdin (if 0 = r.ready then
          { poll_store s r with timeout_count := ulong_incr (poll_store s r).timeout_count }
          else poll_store s r)) with
      | exited code out s2 =>
        rw [h3] at h
        exact Outcome.noConfusion h
      | returned s2 =>
        rw [h3] at h
        have e1 := loop_serialinout_disconnected _ _ h
        have e2 := loop_stdout_disconnected _ _ h3
        have e3 := loop_stdin_disconnected (if 0 = r.ready then
          { poll_store s r with timeout_count := ulong_incr (poll_store s r).timeout_count }
          else poll_store s r)
        rw [e1, e2, e3]
        split_ifs <;> rfl
    · rw [if_neg h2] at h
      injection h with h
      subst h
      split_ifs <;> rfl

/-- Entered with `disconnected = 0`, the loop is never left through its
condition: it ends in `died` or is still running. -/
theorem main_loop_not_left (device_name : String) (polls : List PollReturn) (s : LoopState)
    (trace : List SysCall) (h : s.disconnected = 0) (s1 : LoopState) (trace1 : List SysCall) :
    main_loop device_name polls s trace ≠ .left s1 trace1 := by
  induction polls generalizing s trace with
  | nil => simp [main_loop, h]
  | cons r rest ih =>
    unfold main_loop
    simp only [h, ne_eq, not_true_eq_false, if_false]
    cases hb : loop_body device_name s r with
    | exited code out s2 => simp
    | returned s2 =>
      have hd := loop_body_disconnected device_name s s2 r hb
      exact ih s2 _ (hd.trans h)

/-- C1: the loop flag `disconnected` is never made non-zero.  From every
loop state with `disconnected = 0`, on every list of `poll` returns, the loop
is not left through its condition; no run of `main` returns (so none returns
`PROGRAM_EXIT_SUCCESS` after closing the device); and from the state in which
the session-input slot (descriptor 4) and the serial slot (descriptor 3) are
both negated, two further iterations leave the program still polling. -/
theorem relay_loop_never_terminates (env : Env) (argv : List String) (device_name : String)
    (polls : List PollReturn) (s : LoopState) (trace : List SysCall) :
    (∀ s1 trace1,
      main_loop device_name polls { s with disconnected := 0 } trace ≠ .left s1 trace1) ∧
    (∀ code trace1, main env argv ≠ .returned code trace1) ∧
    main_loop "/dev/ttyS0" [⟨1, 0, POLLOUT, 0⟩, ⟨0, 0, 0, 0⟩] (loop_init (-4) 1 (-3)) [] =
      .blocked { loop_init (-4) 1 (-3) with stdout_count := 1, timeout_count := 1 }
        [.sys_poll [-4, 1, -3], .sys_poll [-4, 1, -3], .sys_poll [-4, 1, -3]] := by
  refine ⟨fun s1 trace1 => main_loop_not_left _ _ _ _ rfl s1 trace1, ?_, by decide⟩
  intro code trace1 h
  unfold main at h
  cases hp : parse_options env.posixly_correct argv options_static with
  | exited c o s0 =>
    rw [hp] at h
    exact MainResult.noConfusion h
  | returned options =>
    rw [hp] at h
    simp only [] at h
    by_cases hf : (-1 : Int) = env.sys_open options.device_name
    · rw [if_pos hf] at h
      exact MainResult.noConfusion h
    · rw [if_neg hf] at h
      cases hs : setup_serial env (env.sys_open options.device_name) options
          [SysCall.sys_open options.device_name] with
      | exited c o t0 =>
        rw [hs] at h
        exact MainResult.noConfusion h
      | returned t0 =>
        rw [hs] at h
        simp only [] at h
        cases hm : main_loop options.device_name env.polls
            (loop_init env.stdin_fileno env.stdout_fileno (env.sys_open options.device_name))
            t0 with
        | died c o s2 t2 =>
          rw [hm] at h
          exact MainResult.noConfusion h
        | blocked s2 t2 =>
          rw [hm] at h
          exact MainResult.noConfusion h
        | left s2 t2 =>
          exact absurd hm (main_loop_not_left _ _ _ _ rfl s2 t2)

theorem and_ne_zero_right (m x : Nat) (h : m &&& x ≠ 0) : x ≠ 0 := by
  intro hx
  rw [hx, Nat.and_zero] at h
  exact h rfl

/-- C2: an error or invalid-descriptor report on the session-input slot is
not examined: with `POLLERR` (or `POLLNVAL`) in the `revents` of the
session-input slot alone, the iteration returns to the loop condition with
`disconnected = 0` and the program goes on polling; the same report on the
session-output or the serial slot exits with `PROGRAM_EXIT_FAIL` (1). -/
theorem poll_error_fatal_except_stdin :
    loop_body "/dev/ttyS0" (loop_init 0 1 3) ⟨1, POLLERR, 0, 0⟩ =
      .returned (poll_store (loop_init 0 1 3) ⟨1, POLLERR, 0, 0⟩) ∧
    loop_body "/dev/ttyS0" (loop_init 0 1 3) ⟨1, POLLNVAL, 0, 0⟩ =
      .returned (poll_store (loop_init 0 1 3) ⟨1, POLLNVAL, 0, 0⟩) ∧
    main { env_quiet with polls := [⟨1, POLLERR, 0, 0⟩] } ["ssh-serial"] =
      .looping (poll_store (loop_init 0 1 3) ⟨1, POLLERR, 0, 0⟩)
        [.sys_open "/dev/ttyS0", .sys_tcgetattr 3,
         .sys_tcsetattr 3 ⟨0, 0, 0x80000430, 0, 0, [], B9600, B9600⟩,
         .sys_poll [0, 1, 3], .sys_poll [0, 1, 3]] ∧
    (∀ (device_name : String) (s : LoopState) (r : PollReturn), 0 < r.ready →
      ((POLLERR ||| POLLNVAL) &&& r.stdout_revents ≠ 0 ∨
        (POLLERR ||| POLLNVAL) &&& r.serialinout_revents ≠ 0) →
      ∃ out s1, loop_body device_name s r = .exited PROGRAM_EXIT_FAIL out s1) := by
  refine ⟨by decide, by decide, by decide, ?_⟩
  intro device_name s r hr herr
  have h1 : ¬ ((-1 : Int) = r.ready) := by omega
  have h0 : ¬ ((0 : Int) = r.ready) := by omega
  unfold loop_body
  simp only [h1, h0, hr, gt_iff_lt, if_true, if_false]
  by_cases hso : (POLLERR ||| POLLNVAL) &&& r.stdout_revents ≠ 0
  · have hne : (loop_stdin (poll_store s r)).pollfd_stdout.revents = r.stdout_revents := by
      unfold loop_stdin
      simp only []
      split_ifs <;> rfl
    have hnz := and_ne_zero_right _ _ hso
    unfold loop_stdout
    simp only [hne, hso, hnz, ne_eq, not_false_eq_true, if_true]
    exact ⟨_, _, rfl⟩
  · have hse : (POLLERR ||| POLLNVAL) &&& r.serialinout_revents ≠ 0 := by
      rcases herr with h | h
      · exact absurd h hso
      · exact h
    cases hout : loop_stdout (loop_stdin (poll_store s r)) with
    | exited code out s2 =>
      have hcode : code = PROGRAM_EXIT_FAIL := by
        unfold loop_stdout at hout
        simp only [] at hout
        split_ifs at hout
        all_goals
          injection hout with hc _ _
          exact hc.symm
      exact ⟨out, s2, by simp [hcode]⟩
    | returned s2 =>
      have hrev : s2.pollfd_serialinout.revents = r.serialinout_revents := by
        have a : (loop_stdin (poll_store s r)).pollfd_serialinout.revents =
            r.serialinout_revents := by
          unfold loop_stdin
          simp only []
          split_ifs <;> rfl
        rw [← a]
        unfold loop_stdout at hout
        simp only [] at hout
        split_ifs at hout <;> injection hout with hout <;> subst hout <;> rfl
      have hnz := and_ne_zero_right _ _ hse
      simp only []
      unfold loop_serialinout
      simp only [hrev, hse, hnz, ne_eq, not_false_eq_true, if_true]
      exact ⟨_, _, rfl⟩

theorem loop_stdin_slots (s : LoopState) :
    (loop_stdin s).pollfd_stdout = s.pollfd_stdout ∧
    (loop_stdin s).pollfd_serialinout = s.pollfd_serialinout ∧
    (loop_stdin s).pollfd_stdin.fd =
      (if POLLRDHUP &&& s.pollfd_stdin.revents ≠ 0 then -s.pollfd_stdin.fd
       else s.pollfd_stdin.fd) := by
  unfold loop_stdin
  simp only []
  by_cases h0 : s.pollfd_stdin.revents ≠ 0
  · rw [if_pos h0]
    split_ifs <;> exact ⟨rfl, rfl, rfl⟩
  · rw [if_neg h0]
    have hz : s.pollfd_stdin.revents = 0 := not_not.mp h0
    have hn : ¬ (POLLRDHUP &&& s.pollfd_stdin.revents ≠ 0) := by
      rw [hz, Nat.and_zero]
      exact fun h => h rfl
    rw [if_neg hn]
    exact ⟨rfl, rfl, rfl⟩

theorem loop_stdout_quiet (s : LoopState) (h : s.pollfd_stdout.revents = 0) :
    loop_stdout s = .returned s := by
  unfold loop_stdout
  simp [h]

theorem loop_serialinout_quiet (s : LoopState) (h : s.pollfd_serialinout.revents = 0) :
    loop_serialinout s = .returned s := by
  unfold loop_serialinout
  simp [h]

theorem loop_serialinout_slots (s : LoopState)
    (herr : (POLLERR ||| POLLNVAL) &&& s.pollfd_serialinout.revents = 0) :
    ∃ s1, loop_serialinout s = .returned s1 ∧
      s1.pollfd_stdin = s.pollfd_stdin ∧ s1.pollfd_stdout = s.pollfd_stdout ∧
      s1.pollfd_serialinout.fd =
        (if POLLHUP &&& s.pollfd_serialinout.revents ≠ 0 then
          (if POLLRDHUP &&& s.pollfd_serialinout.revents ≠ 0 then s.pollfd_serialinout.fd
           else -s.pollfd_serialinout.fd)
         else
          (if POLLRDHUP &&& s.pollfd_serialinout.revents ≠ 0 then -s.pollfd_serialinout.fd
           else s.pollfd_serialinout.fd)) := by
  have hne : ¬ ((POLLERR ||| POLLNVAL) &&& s.pollfd_serialinout.revents ≠ 0) :=
    fun h => h herr
  unfold loop_serialinout
  simp only []
  by_cases h0 : s.pollfd_serialinout.revents ≠ 0
  · rw [if_pos h0, if_neg hne]
    by_cases h1 : POLLHUP &&& s.pollfd_serialinout.revents ≠ 0 <;>
      by_cases h2 : POLLRDHUP &&& s.pollfd_serialinout.revents ≠ 0
    · simp only [if_pos h1, if_pos h2]
      split_ifs <;> exact ⟨_, rfl, rfl, rfl, neg_neg _⟩
    · simp only [if_pos h1, if_neg h2]
      split_ifs <;> exact ⟨_, rfl, rfl, rfl, rfl⟩
    · simp only [if_neg h1, if_pos h2]
      split_ifs <;> exact ⟨_, rfl, rfl, rfl, rfl⟩
    · simp only [if_neg h1, if_neg h2]
      split_ifs <;> exact ⟨_, rfl, rfl, rfl, rfl⟩
  · rw [if_neg h0]
    have hz : s.pollfd_serialinout.revents = 0 := not_not.mp h0
    refine ⟨s, rfl, rfl, rfl, ?_⟩
    simp [hz]

/-- C3: on a hang-up report the slot's descriptor is negated, which does not
always leave it negative.  With the session input on descriptor 0 a
`POLLRDHUP` report leaves 0 in the slot, and a serial report carrying both
`POLLHUP` and `POLLRDHUP` negates the slot twice and leaves the descriptor as
it was; the loop goes on in both cases.  In general, when the other two slots
report nothing, a session-input `POLLRDHUP` report negates that slot's
descriptor, a serial report without error bits negates the serial descriptor
once for each of `POLLHUP` and `POLLRDHUP`, the other descriptors are
unchanged and the iteration returns to the loop condition. -/
theorem hangup_slot_negation :
    loop_body "/dev/ttyS0" (loop_init 0 1 3) ⟨1, POLLRDHUP, 0, 0⟩ =
      .returned (poll_store (loop_init 0 1 3) ⟨1, POLLRDHUP, 0, 0⟩) ∧
    ¬ (poll_store (loop_init 0 1 3) ⟨1, POLLRDHUP, 0, 0⟩).pollfd_stdin.fd < 0 ∧
    loop_body "/dev/ttyS0" (loop_init 0 1 3) ⟨1, 0, 0, POLLHUP ||| POLLRDHUP⟩ =
      .returned (poll_store (loop_init 0 1 3) ⟨1, 0, 0, POLLHUP ||| POLLRDHUP⟩) ∧
    ¬ (poll_store (loop_init 0 1 3) ⟨1, 0, 0, POLLHUP ||| POLLRDHUP⟩).pollfd_serialinout.fd < 0 ∧
    (∀ (device_name : String) (s : LoopState) (r : PollReturn), 0 < r.ready →
      POLLRDHUP &&& r.stdin_revents ≠ 0 → r.stdout_revents = 0 →
      r.serialinout_revents = 0 →
      ∃ s1, loop_body device_name s r = .returned s1 ∧
        s1.pollfd_stdin.fd = -s.pollfd_stdin.fd ∧
        s1.pollfd_stdout.fd = s.pollfd_stdout.fd ∧
        s1.pollfd_serialinout.fd = s.pollfd_serialinout.fd ∧
        s1.disconnected = s.disconnected) ∧
    (∀ (device_name : String) (s : LoopState) (r : PollReturn), 0 < r.ready →
      r.stdin_revents = 0 → r.stdout_revents = 0 →
      (POLLERR ||| POLLNVAL) &&& r.serialinout_revents = 0 →
      ∃ s1, loop_body device_name s r = .returned s1 ∧
        s1.pollfd_stdin.fd = s.pollfd_stdin.fd ∧
        s1.pollfd_stdout.fd = s.pollfd_stdout.fd ∧
        s1.pollfd_serialinout.fd =
          (if POLLHUP &&& r.serialinout_revents ≠ 0 then
            (if POLLRDHUP &&& r.serialinout_revents ≠ 0 then s.pollfd_serialinout.fd
             else -s.pollfd_serialinout.fd)
           else
            (if POLLRDHUP &&& r.serialinout_revents ≠ 0 then -s.pollfd_serialinout.fd
             else s.pollfd_serialinout.fd)) ∧
        s1.disconnected = s.disconnected) := by
  refine ⟨by decide, by decide, by decide, by decide, ?_, ?_⟩
  · intro device_name s r hr hup hout hser
    have h1 : ¬ ((-1 : Int) = r.ready) := by omega
    have h0 : ¬ ((0 : Int) = r.ready) := by omega
    have hb : loop_body device_name s r = .returned (loop_stdin (poll_store s r)) := by
      have k := loop_stdin_slots (poll_store s r)
      have q1 : (loop_stdin (poll_store s r)).pollfd_stdout.revents = 0 := by
        rw [k.1]
        exact hout
      have q2 : (loop_stdin (poll_store s r)).pollfd_serialinout.revents = 0 := by
        rw [k.2.1]
        exact hser
      unfold loop_body
      simp only [h1, h0, hr, gt_iff_lt, if_true, if_false]
      rw [loop_stdout_quiet _ q1]
      exact loop_serialinout_quiet _ q2
    have k := loop_stdin_slots (poll_store s r)
    refine ⟨_, hb, ?_, ?_, ?_, ?_⟩
    · rw [k.2.2]
      have hup2 : POLLRDHUP &&& (poll_store s r).pollfd_stdin.revents ≠ 0 := hup
      rw [if_pos hup2]
      rfl
    · rw [k.1]
      rfl
    · rw [k.2.1]
      rfl
    · rw [loop_stdin_disconnected]
      rfl
  · intro device_name s r hr hin hout herr
    have h1 : ¬ ((-1 : Int) = r.ready) := by omega
    have h0 : ¬ ((0 : Int) = r.ready) := by omega
    have hs : loop_stdin (poll_store s r) = poll_store s r := by
      unfold loop_stdin
      have z : (poll_store s r).pollfd_stdin.revents = 0 := hin
      simp [z]
    have herr2 : (POLLERR ||| POLLNVAL) &&& (poll_store s r).pollfd_serialinout.revents = 0 :=
      herr
    obtain ⟨s1, e1, e2, e3, e4⟩ := loop_serialinout_slots (poll_store s r) herr2
    have hb : loop_body device_name s r = .returned s1 := by
      unfold loop_body
      simp only [h1, h0, hr, gt_iff_lt, if_true, if_false]
      rw [hs, loop_stdout_quiet _ hout]
      exact e1
    refine ⟨s1, hb, ?_, ?_, ?_, ?_⟩
    · rw [e2]
      rfl
    · rw [e3]
      rfl
    · rw [e4]
      rfl
    · rw [loop_body_disconnected device_name s s1 r hb]

/-- The pending region lies inside the backing storage. -/
theorem buffer_added_data_inside (t t1 : buffer_t) (r : Int)
    (hw : t.buffer_start ≤ t.data_start ∧
      t.data_start + t.data_size ≤ t.buffer_start + t.buffer_size)
    (h : buffer_added_data t r = some t1) :
    (t1.buffer_start ≤ t1.data_start ∧
      t1.data_start + t1.data_size ≤ t1.buffer_start + t1.buffer_size) ∧
    t1.buffer_start = t.buffer_start ∧ t1.buffer_size = t.buffer_size := by
  unfold buffer_added_data buffer_remaining_size at h
  split_ifs at h with hb
  injection h with h
  subst h
  simp only [and_true]
  omega

theorem buffer_removed_data_inside (t t1 : buffer_t) (written : Int)
    (hw : t.buffer_start ≤ t.data_start ∧
      t.data_start + t.data_size ≤ t.buffer_start + t.buffer_size)
    (h : buffer_removed_data t written = some t1) :
    (t1.buffer_start ≤ t1.data_start ∧
      t1.data_start + t1.data_size ≤ t1.buffer_start + t1.buffer_size) ∧
    t1.buffer_start = t.buffer_start ∧ t1.buffer_size = t.buffer_size := by
  unfold buffer_removed_data buffer_data_size at h
  split_ifs at h with hb
  injection h with h
  subst h
  simp only [and_true]
  omega

theorem buffer_calls_inside (calls : List BufferCall) (t t1 : buffer_t)
    (hw : t.buffer_start ≤ t.data_start ∧
      t.data_start + t.data_size ≤ t.buffer_start + t.buffer_size)
    (h : buffer_calls calls t = some t1) :
    (t1.buffer_start ≤ t1.data_start ∧
      t1.data_start + t1.data_size ≤ t1.buffer_start + t1.buffer_size) ∧
    t1.buffer_start = t.buffer_start ∧ t1.buffer_size = t.buffer_size := by
  induction calls generalizing t with
  | nil =>
    simp only [buffer_calls, Option.some.injEq] at h
    subst h
    exact ⟨hw, rfl, rfl⟩
  | cons c rest ih =>
    cases c with
    | added_data r =>
      unfold buffer_calls at h
      cases h2 : buffer_added_data t r with
      | none => simp [h2] at h
      | some t2 =>
        rw [h2] at h
        have a := buffer_added_data_inside t t2 r hw h2
        have b := ih t2 a.1 h
        exact ⟨b.1, b.2.1.trans a.2.1, b.2.2.trans a.2.2⟩
    | removed_data written =>
      unfold buffer_calls at h
      cases h2 : buffer_removed_data t written with
      | none => simp [h2] at h
      | some t2 =>
        rw [h2] at h
        have a := buffer_removed_data_inside t t2 written hw h2
        have b := ih t2 a.1 h
        exact ⟨b.1, b.2.1.trans a.2.1, b.2.2.trans a.2.2⟩

/-- C4: a buffer made by `buffer_make(size)` starts with `data_size = 0`,
`data_start = buffer_start` and `buffer_size = size`; after every sequence of
`buffer_added_data` and `buffer_removed_data` calls made within their bounds
the pending length is at most the capacity, the pending region and the
remaining region lie inside the backing storage, and no address belongs to
both regions; a call succeeds exactly when it is within its bounds. -/
theorem buffer_invariant (b_alloc start_alloc : Option Nat) (size : Nat) (b : buffer_t)
    (hmake : buffer_make b_alloc start_alloc size = some b) :
    (b.data_size = 0 ∧ b.data_start = b.buffer_start ∧ b.buffer_size = size) ∧
    ∀ (calls : List BufferCall) (t : buffer_t), buffer_calls calls b = some t →
      t.buffer_start = b.buffer_start ∧ t.buffer_size = size ∧
      buffer_data_size t ≤ t.buffer_size ∧
      t.buffer_start ≤ buffer_data_start t ∧
      buffer_data_start t + buffer_data_size t ≤ t.buffer_start + t.buffer_size ∧
      t.buffer_start ≤ buffer_remaining_start t ∧
      buffer_remaining_start t + buffer_remaining_size t ≤ t.buffer_start + t.buffer_size ∧
      (∀ a : Nat, ¬ ((buffer_data_start t ≤ a ∧ a < buffer_data_start t + buffer_data_size t) ∧
        (buffer_remaining_start t ≤ a ∧
          a < buffer_remaining_start t + buffer_remaining_size t))) ∧
      (∀ r : Int, (buffer_added_data t r).isSome ↔
        (0 ≤ r ∧ r ≤ (buffer_remaining_size t : Int))) ∧
      (∀ written : Int, (buffer_removed_data t written).isSome ↔
        (0 ≤ written ∧ written ≤ (buffer_data_size t : Int))) := by
  have hb : b.data_size = 0 ∧ b.data_start = b.buffer_start ∧ b.buffer_size = size := by
    unfold buffer_make at hmake
    cases b_alloc with
    | none => simp at hmake
    | some x =>
      cases start_alloc with
      | none => simp at hmake
      | some y =>
        simp only [Option.some.injEq] at hmake
        subst hmake
        exact ⟨rfl, rfl, rfl⟩
  refine ⟨hb, ?_⟩
  intro calls t ht
  have hw : b.buffer_start ≤ b.data_start ∧
      b.data_start + b.data_size ≤ b.buffer_start + b.buffer_size := by
    omega
  obtain ⟨⟨h1, h2⟩, h3, h4⟩ := buffer_calls_inside calls b t hw ht
  unfold buffer_data_size buffer_data_start buffer_remaining_start buffer_remaining_size
  refine ⟨h3, h4.trans hb.2.2, by omega, h1, h2, by omega, by omega, ?_, ?_, ?_⟩
  · intro a
    omega
  · intro r
    unfold buffer_added_data buffer_remaining_size
    split_ifs with hc
    · simpa using hc
    · simpa using hc
  · intro written
    unfold buffer_removed_data buffer_data_size
    split_ifs with hc
    · simpa using hc
    · simpa using hc

/-- Witness for C4: a buffer of 8 bytes filled, partly drained and filled
again. -/
theorem buffer_invariant_witness :
    buffer_make (some 4096) (some 8192) 8 = some ⟨8192, 8, 8192, 0⟩ ∧
    buffer_calls [.added_data 5, .removed_data 2, .added_data 5] ⟨8192, 8, 8192, 0⟩ =
      some ⟨8192, 8, 8192, 8⟩ ∧
    buffer_data_size ⟨8192, 8, 8192, 8⟩ ≤ (⟨8192, 8, 8192, 8⟩ : buffer_t).buffer_size :=
  ⟨by decide, by decide,
   ((buffer_invariant (some 4096) (some 8192) 8 ⟨8192, 8, 8192, 0⟩ (by decide)).2
      [.added_data 5, .removed_data 2, .added_data 5] ⟨8192, 8, 8192, 8⟩ (by decide)).2.2.1⟩

end SshSerial
